import Mathlib

/-!
Verification development for the Lectura repository: a slide-deck to
narrated-lecture pipeline with a Next.js viewer frontend. The definitions
below shallowly embed the frontend code under src/frontend and
src/unnamed; components that live only in the absent Python backend are
modelled from the specification and clearly marked as such.
-/

/-- A browser file as seen by the upload page: name, MIME type, byte size.
From the File values consumed by handleDrop and handleFileSelect in
src/frontend/app/page.tsx. -/
structure File where
  name : String
  type : String
  size : Nat
deriving DecidableEq

/-- The MIME-type check of handleDrop (src/frontend/app/page.tsx lines 64-65). -/
def isAllowedType (t : String) : Bool :=
  t == "application/pdf" ||
  t == "application/vnd.openxmlformats-officedocument.presentationml.presentation"

/-- Result of a client-side upload handler: it either issues the upload
request for a file, rejects with an error message, or does nothing. -/
inductive UploadAction where
  | upload (f : File)
  | reject (msg : String)
  | noAction
deriving DecidableEq

/-- handleDrop from src/frontend/app/page.tsx lines 58-71: takes the first
dropped file; uploads it when its MIME type is PDF or PPTX, otherwise sets
the error message without uploading. -/
def handleDrop (files : List File) : UploadAction :=
  match files.head? with
  | some f =>
      if isAllowedType f.type then UploadAction.upload f
      else UploadAction.reject ("Please upload a PDF or PPTX file")
  | none => UploadAction.noAction

/-- handleFileSelect from src/frontend/app/page.tsx lines 73-78: uploads the
chosen file unconditionally, with no MIME-type or extension check. -/
def handleFileSelect (file : Option File) : UploadAction :=
  match file with
  | some f => UploadAction.upload f
  | none => UploadAction.noAction

/-- The upload URL built by uploadFile in src/frontend/app/page.tsx line 40,
carrying the enable_vision, tts_provider and polly_voice options as query
parameters. -/
def uploadUrl (apiUrl : String) (enableVision : Bool) (ttsProvider pollyVoice : String) : String :=
  apiUrl ++ "/api/v1/upload?enable_vision=" ++ (if enableVision then "true" else "false") ++
    "&tts_provider=" ++ ttsProvider ++ "&polly_voice=" ++ pollyVoice

/-- The HTTP request issued by uploadFile: POST to the upload URL with the
file as form body. -/
structure UploadRequest where
  method : String
  url : String
  body : File
deriving DecidableEq

/-- Request construction of uploadFile (src/frontend/app/page.tsx lines 36-43). -/
def mkUploadRequest (apiUrl : String) (enableVision : Bool) (ttsProvider pollyVoice : String)
    (f : File) : UploadRequest :=
  { method := "POST", url := uploadUrl apiUrl enableVision ttsProvider pollyVoice, body := f }

/-- The response consumed by uploadFile: ok flag, session_id from the JSON
body on success, optional error detail. -/
structure UploadResponse where
  ok : Bool
  session_id : String
  detail : Option String
deriving DecidableEq

/-- What uploadFile does with the response. -/
inductive UploadOutcome where
  | navigate (path : String)
  | failed (message : String)
deriving DecidableEq

/-- Response handling of uploadFile (src/frontend/app/page.tsx lines 45-55):
on ok it navigates to the dashboard of the returned session_id, otherwise it
surfaces the error detail. -/
def uploadFileOutcome (resp : UploadResponse) : UploadOutcome :=
  if resp.ok then UploadOutcome.navigate ("/dashboard/" ++ resp.session_id)
  else UploadOutcome.failed (resp.detail.getD ("Upload failed"))

/-- The processing status record polled by the dashboard, from the
ProcessingStatus interface in src/unnamed/part_001 lines 7-13: exactly the
fields phase, progress, message, complete and the optional total_slides. -/
structure ProcessingStatus where
  phase : String
  progress : ℚ
  message : String
  complete : Bool
  total_slides : Option Nat
deriving DecidableEq

/-- The ordered phase checklist of the dashboard, from src/unnamed/part_001
lines 81-89. -/
def phases : List String :=
  ["converting", "parsing", "extracting_images", "building_context",
   "generating_narrations", "generating_audio", "creating_viewer"]

/-- The SessionStatus union from src/frontend/lib/types.ts lines 63-69. -/
def sessionStatusValues : List String :=
  ["uploading", "parsing", "analyzing", "generating", "complete", "error"]

/-- canCancel from src/unnamed/part_001: cancellation is offered only while
the run is not complete and the phase is neither canceled nor error. -/
def canCancel (st : ProcessingStatus) : Bool :=
  !st.complete && st.phase != "canceled" && st.phase != "error"

/-- The phase set as enumerated by the specification (spec section 4.1):
uploading through creating_viewer in order, then complete, plus the
absorbing states canceled and error. Stated from the words of the spec, to
be compared with the lists the code actually enumerates. -/
def specPhaseSet : List String :=
  ["uploading", "parsing", "extracting_images", "building_context",
   "generating_narrations", "generating_audio", "creating_viewer",
   "complete", "canceled", "error"]

/-- One timing entry, from the WordTiming interface in
src/frontend/app/lecture/[sessionId]/page.tsx lines 7-10: a text fragment
and its start time in seconds. -/
structure WordTiming where
  word : String
  start_time : ℚ
deriving DecidableEq

/-- Sum of the text lengths of the timing entries, the numerator of the
avgWordLength computation at page.tsx line 212. -/
def wordLengthSum (ts : List WordTiming) : Nat :=
  (ts.map (fun t => t.word.length)).sum

/-- The granularity heuristic at page.tsx lines 212-213: the list is
treated as sentence-level exactly when the average entry length exceeds 50
characters, i.e. when the length sum exceeds 50 times the entry count. -/
def isSentenceLevel (ts : List WordTiming) : Bool :=
  50 * ts.length < wordLengthSum ts

/-- The index-search loop of handleTimeUpdate (page.tsx lines 202-209),
with the loop counter i and the accumulator currentIndex made explicit:
while the entry at i starts no later than the playback time, currentIndex
becomes i; the first later entry breaks the loop. -/
def findCurrentIndexAux (time : ℚ) : List WordTiming → Nat → Nat → Nat
  | [], _, acc => acc
  | t :: rest, i, acc =>
      if t.start_time ≤ time then findCurrentIndexAux time rest (i + 1) i else acc

/-- The current timing index computed by handleTimeUpdate, starting from
currentIndex = 0. -/
def findCurrentIndex (time : ℚ) (ts : List WordTiming) : Nat :=
  findCurrentIndexAux time ts 0 0

/-- Declarative form of the current index used in claim C10: the largest
index within the initial segment of entries whose start_time is at most the
playback time, and 0 when that segment is empty (truncated subtraction
covers both cases). -/
def specCurrentIndex (time : ℚ) (ts : List WordTiming) : Nat :=
  (ts.takeWhile (fun t => decide (t.start_time ≤ time))).length - 1

/-- The lecture bundle fetched by the viewer, from the LectureData interface
in src/frontend/app/lecture/[sessionId]/page.tsx lines 12-23. The Record
fields keyed by slide-index strings are modelled as association lists keyed
by the slide index. -/
structure LectureData where
  pdf_name : String
  total_slides : Nat
  narrations : List (Nat × String)
  narrations_tts : Option (List (Nat × String))
  slide_titles : List String
  word_timings : List (Nat × List WordTiming)
  display_sentences : Option (List (Nat × List String))
  tts_provider : Option String
  polly_voice : Option String
  enable_vision : Option Bool

/-- The timing list the viewer uses for a slide:
lectureData.word_timings[currentSlide], empty when absent. -/
def slideTimings (data : LectureData) (slide : Nat) : List WordTiming :=
  (data.word_timings.lookup slide).getD []

/-- The fallback subtitle of the sentence branch (page.tsx line 221):
the word of the current entry, or the empty string when out of range. -/
def sentenceFallback (ts : List WordTiming) (i : Nat) : String :=
  ((ts.get? i).map (fun t => t.word)).getD ""

/-- The sentence-level branch of handleTimeUpdate (page.tsx lines 215-222):
show the display sentence at the current index when one is present and
non-empty, otherwise fall back to the timing entry itself. -/
def sentenceBranch (data : LectureData) (slide : Nat) (i : Nat) : String :=
  match data.display_sentences.bind (fun m => m.lookup slide) with
  | some sents =>
      match sents.get? i with
      | some s => if s = "" then sentenceFallback (slideTimings data slide) i else s
      | none => sentenceFallback (slideTimings data slide) i
  | none => sentenceFallback (slideTimings data slide) i

/-- The word-level branch of handleTimeUpdate (page.tsx lines 224-229):
join the 15-word-aligned chunk containing index i with spaces;
timings.slice(chunkStart, chunkEnd) is drop then take. -/
def wordChunkBranch (ts : List WordTiming) (i : Nat) : String :=
  String.intercalate " "
    (((ts.drop (i / 15 * 15)).take (min (i / 15 * 15 + 15) ts.length - i / 15 * 15)).map
      (fun t => t.word))

/-- The subtitle computed by handleTimeUpdate (page.tsx lines 189-236) from
the playback time and duration: empty unless the duration is positive and
the slide has timing entries; otherwise the sentence branch or the word
chunk branch according to the length heuristic. -/
def subtitleFor (data : LectureData) (slide : Nat) (time dur : ℚ) : String :=
  if 0 < dur ∧ 0 < (slideTimings data slide).length then
    if isSentenceLevel (slideTimings data slide) = true then
      sentenceBranch data slide (findCurrentIndex time (slideTimings data slide))
    else
      wordChunkBranch (slideTimings data slide) (findCurrentIndex time (slideTimings data slide))
  else ""

/-- nextSlide from page.tsx lines 110-114: advance only while strictly
before the last slide. -/
def nextSlide (total cur : Nat) : Nat :=
  if cur < total - 1 then cur + 1 else cur

/-- previousSlide from page.tsx lines 116-120: go back only while strictly
after slide 0. -/
def previousSlide (cur : Nat) : Nat :=
  if 0 < cur then cur - 1 else cur

/-- The slide change performed by handleAudioEnded (page.tsx lines 238-251):
auto-advance only while strictly before the last slide. -/
def handleAudioEndedSlide (total cur : Nat) : Nat :=
  if cur < total - 1 then cur + 1 else cur

/-- A navigation operation of the viewer. -/
inductive ViewerOp where
  | next
  | prev
  | ended

/-- Apply one viewer operation to the current slide index. -/
def applyViewerOp (total cur : Nat) : ViewerOp → Nat
  | ViewerOp.next => nextSlide total cur
  | ViewerOp.prev => previousSlide cur
  | ViewerOp.ended => handleAudioEndedSlide total cur

/-- Run a sequence of viewer operations starting from slide 0, as the
viewer does. -/
def runViewerOps (total : Nat) (ops : List ViewerOp) : Nat :=
  ops.foldl (applyViewerOp total) 0

/-- A section of the lecture plan, from src/frontend/lib/types.ts lines 25-30. -/
structure Section where
  title : String
  start_slide : Nat
  end_slide : Nat
  summary : String
deriving DecidableEq

/-- A key diagram entry, from the key_diagrams field of GlobalContextPlan in
src/frontend/lib/types.ts lines 43-47. -/
structure KeyDiagram where
  slide_idx : Nat
  description : String
  purpose : String
deriving DecidableEq

/-- The whole-document plan, from the GlobalContextPlan interface in
src/frontend/lib/types.ts lines 32-50; Record fields are modelled as
association lists. -/
structure GlobalContextPlan where
  lecture_title : String
  total_slides : Nat
  sections : List Section
  topic_progression : List String
  learning_objectives : List String
  terminology : List (String × String)
  prerequisites : List String
  cross_references : List (Nat × List Nat)
  instructional_style : String
  audience_level : String
  key_diagrams : List KeyDiagram
  created_at : String
  total_tokens_analyzed : Nat
deriving DecidableEq

/-- One narration, from the NarrationSegment interface in
src/frontend/lib/types.ts lines 52-61. -/
structure NarrationSegment where
  slide_index : Nat
  narration_text : String
  estimated_duration_seconds : ℚ
  references_previous_slides : List Nat
  introduces_concepts : List String
  prepares_for_next : Option String
  tokens_used : Nat
  generation_timestamp : String
deriving DecidableEq

/-- A raw cross-reference value as it may arrive from the AI provider:
an integer, a float, or a string such as a composite section label. -/
inductive RawRef where
  | intVal (n : Int)
  | floatVal (q : ℚ)
  | strVal (s : String)
deriving DecidableEq

/-- Decimal parsing helper: accumulate digits, failing on the first
non-digit character. -/
def parseNatAux : List Char → Nat → Option Nat
  | [], acc => some acc
  | c :: cs, acc =>
      if c.isDigit then parseNatAux cs (acc * 10 + (c.toNat - 48)) else none

/-- Parse a string as a natural number: all characters must be decimal
digits and the string must be non-empty. -/
def parseNat? (s : String) : Option Nat :=
  if s.toList.isEmpty then none else parseNatAux s.toList 0

/-- Modelled from the spec: the defensive cross-reference normalization of
the Global Context Builder (spec sections 3 and 4.3), whose Python
implementation is absent from src. Provider values "may arrive as strings,
floats, or composite labels and must be normalized to valid integer slide
indices or discarded": an integer is kept iff it lies in
[0, total_slides); a float is kept only when it is integral and in range; a
string is kept only when it parses as a natural number in range (a
composite label such as Section 1.4 fails the parse and is dropped). -/
def normalizeRef (totalSlides : Nat) (v : RawRef) : Option Nat :=
  match v with
  | RawRef.intVal n => if 0 ≤ n ∧ n < (totalSlides : Int) then some n.toNat else none
  | RawRef.floatVal q =>
      if q.den = 1 ∧ 0 ≤ q.num ∧ q.num < (totalSlides : Int) then some q.num.toNat else none
  | RawRef.strVal s =>
      match parseNat? s with
      | some n => if n < totalSlides then some n else none
      | none => none

/-- Modelled from the spec: normalization of the whole raw cross-reference
map, dropping every value that does not normalize. -/
def normalizeCrossRefs (totalSlides : Nat) (raw : List (Nat × List RawRef)) :
    List (Nat × List Nat) :=
  raw.map (fun p => (p.1, p.2.filterMap (normalizeRef totalSlides)))

/-- Modelled from the spec: the Narration Cache (spec section 4.5), whose
Python implementation is absent from src. It is a keyed store from
document keys to the generated narrations and plan; store writes the new
entry so that a subsequent lookup of the same key sees it (last writer
wins, one of the write policies the spec allows). -/
def cacheStore (c : List (String × (List NarrationSegment × GlobalContextPlan)))
    (k : String) (narr : List NarrationSegment) (plan : GlobalContextPlan) :
    List (String × (List NarrationSegment × GlobalContextPlan)) :=
  (k, (narr, plan)) :: c

/-- Modelled from the spec: Narration Cache lookup by document key. -/
def cacheLookup (c : List (String × (List NarrationSegment × GlobalContextPlan)))
    (k : String) : Option (List NarrationSegment × GlobalContextPlan) :=
  c.lookup k

/-- A validation failure raised before any processing phase starts. -/
structure ValidationError where
  message : String
deriving DecidableEq

/-- The session created by a successful start, before any processing phase
has run. -/
structure StartedSession where
  session_id : String
  phase : String
deriving DecidableEq

/-- The upload size ceiling: 100 MB, as stated by the upload page
(src/frontend/app/page.tsx shows the ceiling Max 100MB). -/
def maxUploadBytes : Nat := 104857600

/-- Modelled from the spec: the Orchestrator start contract (spec section
4.1), whose FastAPI implementation is absent from src. It validates the
file type (PDF or PPTX) and the size ceiling, rejecting with a
ValidationError before any processing phase starts, and otherwise creates
the session. -/
def startSession (f : File) (sid : String) : Except ValidationError StartedSession :=
  if isAllowedType f.type = false then
    Except.error ⟨"Unsupported file type"⟩
  else if maxUploadBytes < f.size then
    Except.error ⟨"File too large"⟩
  else
    Except.ok ⟨sid, "uploading"⟩

/-- Modelled from the spec: one stored session of the status endpoint (spec
sections 3 and 6), whose backend implementation is absent from src; a
session id, an expiry time, and the current processing status. -/
structure SessionEntry where
  sid : String
  expires_at : ℚ
  status : ProcessingStatus
deriving DecidableEq

/-- Modelled from the spec: the status query GET /session/id/status. For a
known, non-expired session it returns the status record; otherwise it
fails (NotFoundError, modelled as none). The record shape is the
ProcessingStatus interface of src/unnamed/part_001 lines 7-13. -/
def getStatus (store : List SessionEntry) (id : String) (now : ℚ) :
    Option ProcessingStatus :=
  match store.find? (fun e => e.sid == id) with
  | some e => if now < e.expires_at then some e.status else none
  | none => none

/-- A concrete lecture bundle used to witness the subtitle theorem. -/
def sampleLecture : LectureData :=
  { pdf_name := "deck.pdf"
    total_slides := 3
    narrations := []
    narrations_tts := none
    slide_titles := []
    word_timings := [(0, [⟨"hello", 0⟩, ⟨"world", 1⟩, ⟨"again", 2⟩])]
    display_sentences := none
    tts_provider := none
    polly_voice := none
    enable_vision := none }

/-- A concrete plan used to witness the cross-reference theorem: its
cross-reference map is the normalization of raw provider output containing
a parseable string, a composite label, a float and an out-of-range index. -/
def samplePlan : GlobalContextPlan :=
  { lecture_title := "Sample"
    total_slides := 10
    sections := []
    topic_progression := []
    learning_objectives := []
    terminology := []
    prerequisites := []
    cross_references :=
      normalizeCrossRefs 10
        [(0, [RawRef.strVal "3", RawRef.strVal "Section 1.4",
              RawRef.floatVal (mkRat 5 2), RawRef.intVal 99, RawRef.intVal 7])]
    instructional_style := "engaging"
    audience_level := "undergraduate"
    key_diagrams := []
    created_at := "2025-01-01"
    total_tokens_analyzed := 0 }

/-- Claim C2 counterexample: the code enumerates the phase converting, which
is outside the phase set claimed by the spec, and does not enumerate
uploading in its phase checklist; the SessionStatus type additionally
contains analyzing, also outside the claimed set. -/
theorem c2_counterexample :
    "converting" ∈ phases ∧ "converting" ∉ specPhaseSet ∧
    "uploading" ∉ phases ∧
    "analyzing" ∈ sessionStatusValues ∧ "analyzing" ∉ specPhaseSet := by
  decide

/-- The index-search loop in closed form: with loop counter i and
accumulator acc, the result is acc when no leading entry starts by the
playback time, and otherwise i plus the length of the satisfied prefix,
minus one. -/
theorem findCurrentIndexAux_eq (time : ℚ) (ts : List WordTiming) (i acc : Nat) :
    findCurrentIndexAux time ts i acc =
      if (ts.takeWhile (fun t => decide (t.start_time ≤ time))).length = 0 then acc
      else i + (ts.takeWhile (fun t => decide (t.start_time ≤ time))).length - 1 := by
  induction ts generalizing i acc with
  | nil => simp [findCurrentIndexAux]
  | cons t rest ih =>
      by_cases h : t.start_time ≤ time
      · have hstep : findCurrentIndexAux time (t :: rest) i acc =
            findCurrentIndexAux time rest (i + 1) i := by
          simp [findCurrentIndexAux, h]
        rw [hstep, ih, List.takeWhile_cons_of_pos (by simpa using h)]
        simp only [List.length_cons]
        rcases Nat.eq_zero_or_pos
            (rest.takeWhile (fun t => decide (t.start_time ≤ time))).length with h0 | h0
        · rw [h0, if_pos rfl, if_neg (by omega)]
          omega
        · rw [if_neg (by omega), if_neg (by omega)]
          omega
      · have hstep : findCurrentIndexAux time (t :: rest) i acc = acc := by
          simp [findCurrentIndexAux, h]
        rw [hstep, List.takeWhile_cons_of_neg (by simpa using h)]
        simp

/-- The loop of handleTimeUpdate computes the declarative current index of
claim C10. -/
theorem findCurrentIndex_eq_spec (time : ℚ) (ts : List WordTiming) :
    findCurrentIndex time ts = specCurrentIndex time ts := by
  rw [findCurrentIndex, specCurrentIndex, findCurrentIndexAux_eq]
  split <;> omega

/-- Claim C2 (amended): the dashboard drives the run through the ordered
non-terminal phase checklist converting, parsing, extracting_images,
building_context, generating_narrations, generating_audio, creating_viewer,
treating complete, canceled and error as terminal: once the run is
complete or the phase is canceled or error, cancellation is no longer
offered; the legacy SessionStatus type instead enumerates uploading,
parsing, analyzing, generating, complete, error. -/
theorem c2_phase_machine (st : ProcessingStatus) :
    phases = ["converting", "parsing", "extracting_images", "building_context",
      "generating_narrations", "generating_audio", "creating_viewer"] ∧
    sessionStatusValues = ["uploading", "parsing", "analyzing", "generating",
      "complete", "error"] ∧
    (st.complete = true ∨ st.phase = "canceled" ∨ st.phase = "error" →
      canCancel st = false) := by
  refine ⟨rfl, rfl, fun h => ?_⟩
  rcases h with h | h | h <;> simp [canCancel, h]

/-- Witness for c2_phase_machine at a concrete canceled status. -/
theorem c2_phase_machine_witness :
    canCancel ⟨"canceled", 50, "Canceled", false, none⟩ = false :=
  (c2_phase_machine ⟨"canceled", 50, "Canceled", false, none⟩).2.2
    (Or.inr (Or.inl rfl))

/-- Claim C3: starting a session validates the file: a file that is neither
PDF nor PPTX is rejected with a ValidationError and no session (hence no
processing phase) is created, while a PDF or PPTX within the size ceiling
is accepted; on the drop path the client performs the same type check
before issuing the upload. -/
theorem c3_upload_validation (f : File) (sid : String) :
    (isAllowedType f.type = false →
      (∃ e : ValidationError, startSession f sid = Except.error e) ∧
      handleDrop [f] = UploadAction.reject "Please upload a PDF or PPTX file") ∧
    (isAllowedType f.type = true → f.size ≤ maxUploadBytes →
      startSession f sid = Except.ok ⟨sid, "uploading"⟩) := by
  constructor
  · intro h
    refine ⟨⟨⟨"Unsupported file type"⟩, ?_⟩, ?_⟩
    · simp [startSession, h]
    · simp [handleDrop, h]
  · intro h hs
    simp [startSession, h]
    omega

/-- Witness for c3_upload_validation: a plain-text file is rejected on both
paths, and a small PDF is accepted. -/
theorem c3_upload_validation_witness :
    ((∃ e : ValidationError,
        startSession ⟨"notes.txt", "text/plain", 10⟩ "s1" = Except.error e) ∧
      handleDrop [⟨"notes.txt", "text/plain", 10⟩] =
        UploadAction.reject "Please upload a PDF or PPTX file") ∧
    startSession ⟨"deck.pdf", "application/pdf", 1000⟩ "s2" =
      Except.ok ⟨"s2", "uploading"⟩ :=
  ⟨(c3_upload_validation ⟨"notes.txt", "text/plain", 10⟩ "s1").1 (by decide),
   (c3_upload_validation ⟨"deck.pdf", "application/pdf", 1000⟩ "s2").2
     (by decide) (by decide)⟩

/-- Claim C9: client-side type validation happens only on the
drag-and-drop path: handleFileSelect uploads every chosen file without any
MIME-type or extension check, so a plain-text file still triggers the
upload request there, while handleDrop rejects the same file with the
PDF-or-PPTX error and does not upload. -/
theorem c9_picker_path_unvalidated :
    (∀ f : File, handleFileSelect (some f) = UploadAction.upload f) ∧
    handleFileSelect (some ⟨"notes.txt", "text/plain", 10⟩) =
      UploadAction.upload ⟨"notes.txt", "text/plain", 10⟩ ∧
    handleDrop [⟨"notes.txt", "text/plain", 10⟩] =
      UploadAction.reject "Please upload a PDF or PPTX file" :=
  ⟨fun _ => rfl, rfl, by decide⟩

/-- Claim C6: the upload operation takes the file together with the
enable_vision flag, the tts_provider selection and the voice selection
(all three appear in the request URL it builds, and the file is the body
of the POST), and on a successful response the client uses the returned
session_id to identify the started run, navigating to its dashboard. -/
theorem c6_upload_interface (apiUrl : String) (ev : Bool) (tp pv : String) (f : File) :
    (mkUploadRequest apiUrl ev tp pv f).method = "POST" ∧
    (mkUploadRequest apiUrl ev tp pv f).body = f ∧
    (mkUploadRequest apiUrl ev tp pv f).url =
      apiUrl ++ "/api/v1/upload?enable_vision=" ++ (if ev then "true" else "false") ++
        "&tts_provider=" ++ tp ++ "&polly_voice=" ++ pv ∧
    (∀ resp : UploadResponse, resp.ok = true →
      uploadFileOutcome resp = UploadOutcome.navigate ("/dashboard/" ++ resp.session_id)) ∧
    (∀ resp : UploadResponse, resp.ok = false →
      ∀ p, uploadFileOutcome resp ≠ UploadOutcome.navigate p) := by
  refine ⟨rfl, rfl, rfl, fun resp h => ?_, fun resp h p => ?_⟩
  · simp [uploadFileOutcome, h]
  · simp [uploadFileOutcome, h]

/-- Witness for c6_upload_interface at a concrete successful response. -/
theorem c6_upload_interface_witness :
    uploadFileOutcome ⟨true, "sess42", none⟩ =
      UploadOutcome.navigate ("/dashboard/" ++ "sess42") :=
  (c6_upload_interface "http://api" true "polly" "Matthew"
    ⟨"deck.pdf", "application/pdf", 1000⟩).2.2.2.1 ⟨true, "sess42", none⟩ rfl

/-- Claim C5: for every known, non-expired session the status query
returns a status record, and a ProcessingStatus record is determined by
exactly the fields phase, progress, message, complete and total_slides (so
it carries no other field). -/
theorem c5_status_shape :
    (∀ a b : ProcessingStatus,
      a.phase = b.phase → a.progress = b.progress → a.message = b.message →
      a.complete = b.complete → a.total_slides = b.total_slides → a = b) ∧
    (∀ (store : List SessionEntry) (id : String) (now : ℚ) (e : SessionEntry),
      store.find? (fun x => x.sid == id) = some e → now < e.expires_at →
      getStatus store id now = some e.status) := by
  constructor
  · intro a b h1 h2 h3 h4 h5
    cases a
    cases b
    simp_all
  · intro store id now e hfind hlive
    simp [getStatus, hfind, hlive]

/-- Witness for c5_status_shape at a concrete one-session store. -/
theorem c5_status_shape_witness :
    getStatus [⟨"abc", 100, ⟨"parsing", 10, "Reading slides", false, some 12⟩⟩]
        "abc" 0 =
      some ⟨"parsing", 10, "Reading slides", false, some 12⟩ :=
  c5_status_shape.2 [⟨"abc", 100, ⟨"parsing", 10, "Reading slides", false, some 12⟩⟩]
    "abc" 0 ⟨"abc", 100, ⟨"parsing", 10, "Reading slides", false, some 12⟩⟩
    rfl (by norm_num)

/-- Claim C7: the Narration Cache round-trips: looking a document key up
immediately after storing narrations and a plan under that key returns
exactly the stored pair, for every cache state, key and pair. -/
theorem c7_cache_roundtrip (c : List (String × (List NarrationSegment × GlobalContextPlan)))
    (k : String) (narr : List NarrationSegment) (plan : GlobalContextPlan) :
    cacheLookup (cacheStore c k narr plan) k = some (narr, plan) := by
  simp [cacheLookup, cacheStore, List.lookup]

/-- Claim C4: in a GlobalContextPlan whose cross-reference map is produced
by the normalization pass, every stored value is a natural slide index
strictly below the total slide count: strings, floats, composite labels
and out-of-range indices are either normalized to such an index or
dropped, and the normalization is a total function (it cannot crash). -/
theorem c4_crossrefs_in_range (plan : GlobalContextPlan) (raw : List (Nat × List RawRef))
    (hplan : plan.cross_references = normalizeCrossRefs plan.total_slides raw)
    (k v : Nat) (refs : List Nat)
    (hmem : (k, refs) ∈ plan.cross_references) (hv : v ∈ refs) :
    v < plan.total_slides := by
  rw [hplan] at hmem
  rcases List.mem_map.mp hmem with ⟨p, _, hp⟩
  have hrefs : refs = p.2.filterMap (normalizeRef plan.total_slides) := by
    have := congrArg Prod.snd hp
    simpa using this.symm
  rw [hrefs] at hv
  rcases List.mem_filterMap.mp hv with ⟨r, _, hr⟩
  cases r with
  | intVal n =>
      simp only [normalizeRef] at hr
      split at hr
      · rename_i hcond
        cases hr
        omega
      · cases hr
  | floatVal q =>
      simp only [normalizeRef] at hr
      split at hr
      · rename_i hcond
        cases hr
        omega
      · cases hr
  | strVal s =>
      simp only [normalizeRef] at hr
      cases hts : parseNat? s with
      | some n =>
          rw [hts] at hr
          have hr2 : (if n < plan.total_slides then some n else none) = some v := hr
          by_cases hlt : n < plan.total_slides
          · rw [if_pos hlt] at hr2
            cases hr2
            exact hlt
          · rw [if_neg hlt] at hr2
            cases hr2
      | none => rw [hts] at hr; cases hr

/-- Witness for c4_crossrefs_in_range: in the sample plan the parseable
string "3" survives normalization as the index 3, the composite label, the
float and the out-of-range index are dropped, and the surviving values lie
below the slide count. -/
theorem c4_crossrefs_in_range_witness :
    samplePlan.cross_references = [(0, [3, 7])] ∧ (3 : Nat) < samplePlan.total_slides :=
  ⟨by decide,
   c4_crossrefs_in_range samplePlan
     [(0, [RawRef.strVal "3", RawRef.strVal "Section 1.4",
           RawRef.floatVal (mkRat 5 2), RawRef.intVal 99, RawRef.intVal 7])]
     rfl 0 3 [3, 7] (by decide) (by decide)⟩

/-- Each viewer operation keeps the slide index strictly below the slide
count. -/
theorem applyViewerOp_lt (total cur : Nat) (op : ViewerOp) (h : cur < total) :
    applyViewerOp total cur op < total := by
  cases op <;>
    simp only [applyViewerOp, nextSlide, previousSlide, handleAudioEndedSlide] <;>
    split <;> omega

/-- Claim C8: for every lecture with at least one slide and every finite
sequence of nextSlide, previousSlide and audio-ended auto-advance
operations starting from slide 0, the current slide index stays within
[0, total - 1]: the advances never move past the last slide and
previousSlide never moves below slide 0 (the index is a natural number and
previousSlide only decrements when it is positive). -/
theorem c8_slide_index_invariant (total : Nat) (ops : List ViewerOp) (h : 1 ≤ total) :
    runViewerOps total ops < total := by
  suffices hinv : ∀ cur, cur < total → ops.foldl (applyViewerOp total) cur < total by
    exact hinv 0 h
  induction ops with
  | nil => intro cur hc; simpa using hc
  | cons op rest ih =>
      intro cur hc
      exact ih _ (applyViewerOp_lt total cur op hc)

/-- Witness for c8_slide_index_invariant on a three-slide lecture and a
concrete operation sequence. -/
theorem c8_slide_index_invariant_witness :
    runViewerOps 3 [ViewerOp.next, ViewerOp.next, ViewerOp.next,
      ViewerOp.prev, ViewerOp.ended] < 3 :=
  c8_slide_index_invariant 3
    [ViewerOp.next, ViewerOp.next, ViewerOp.next, ViewerOp.prev, ViewerOp.ended]
    (by decide)

/-- Claim C1 counterexample: the viewer infers timing granularity from
text length alone. The classifier takes only the timing entries as input
(no provider-reported mode exists in the lecture bundle it could consult),
and two single-entry lists that differ only in the character length of
their entry are classified differently: a 2-character entry is word-level
while a 60-character entry is classified sentence-level, so the
classification does depend on the average character length. -/
theorem c1_counterexample :
    isSentenceLevel [⟨"hi", 0⟩] = false ∧
    isSentenceLevel [⟨"aaaaaaaaaaaaaaaaaaaaaaaaaaaaaaaaaaaaaaaaaaaaaaaaaaaaaaaaaaaa", 0⟩] =
      true := by
  decide

/-- Claim C1 (amended): the timing granularity of a slide is inferred
heuristically by the consumer from the text length of the timing entries:
a non-empty list is classified sentence-level exactly when the average
character length of its entries exceeds 50. -/
theorem c1_length_heuristic (ts : List WordTiming) (h : ts ≠ []) :
    isSentenceLevel ts = true ↔
      (50 : ℚ) < (wordLengthSum ts : ℚ) / (ts.length : ℚ) := by
  have hn : 0 < (ts.length : ℚ) := by
    have hl : 0 < ts.length := List.length_pos.mpr h
    exact_mod_cast hl
  rw [isSentenceLevel, decide_eq_true_eq, lt_div_iff₀ hn]
  norm_cast

/-- Witness for c1_length_heuristic at a concrete short-entry list. -/
theorem c1_length_heuristic_witness :
    isSentenceLevel [⟨"hi", 0⟩] = true ↔
      (50 : ℚ) < (wordLengthSum [⟨"hi", 0⟩] : ℚ) /
        (([⟨"hi", 0⟩] : List WordTiming).length : ℚ) :=
  c1_length_heuristic [⟨"hi", 0⟩] (by decide)

/-- Claim C10: in word-level mode (average timing-entry length at most 50
characters), the subtitle shown by handleTimeUpdate is the space-joined
words of the 15-word-aligned chunk containing the current index: with i
the largest index in the initial segment of entries whose start_time is at
most the playback time (0 if none) and L the timing-list length, the chunk
spans indices from 15 * (i / 15) up to min (15 * (i / 15) + 15) L. -/
theorem c10_word_level_subtitle (data : LectureData) (slide : Nat) (time dur : ℚ)
    (h1 : 0 < dur) (h2 : 0 < (slideTimings data slide).length)
    (h3 : wordLengthSum (slideTimings data slide) ≤ 50 * (slideTimings data slide).length) :
    subtitleFor data slide time dur =
      String.intercalate " "
        ((((slideTimings data slide).drop
            (15 * (specCurrentIndex time (slideTimings data slide) / 15))).take
          (min (15 * (specCurrentIndex time (slideTimings data slide) / 15) + 15)
              (slideTimings data slide).length -
            15 * (specCurrentIndex time (slideTimings data slide) / 15))).map
          (fun t => t.word)) := by
  have hns : isSentenceLevel (slideTimings data slide) = false :=
    decide_eq_false (Nat.not_lt.mpr h3)
  rw [subtitleFor, if_pos ⟨h1, h2⟩, if_neg (by simp [hns]), findCurrentIndex_eq_spec,
    wordChunkBranch, Nat.mul_comm (specCurrentIndex time (slideTimings data slide) / 15) 15]

/-- Witness for c10_word_level_subtitle on the sample lecture at playback
time 3/2, where the current index is 1 and the chunk is the whole
three-word list. -/
theorem c10_word_level_subtitle_witness :
    subtitleFor sampleLecture 0 (mkRat 3 2) 1 =
      String.intercalate " "
        ((((slideTimings sampleLecture 0).drop
            (15 * (specCurrentIndex (mkRat 3 2) (slideTimings sampleLecture 0) / 15))).take
          (min (15 * (specCurrentIndex (mkRat 3 2) (slideTimings sampleLecture 0) / 15) + 15)
              (slideTimings sampleLecture 0).length -
            15 * (specCurrentIndex (mkRat 3 2) (slideTimings sampleLecture 0) / 15))).map
          (fun t => t.word)) :=
  c10_word_level_subtitle sampleLecture 0 (mkRat 3 2) 1 (by decide) (by decide) (by decide)
